import Mathlib

/-!
Verification of the ToolHub web application (a Flask multi-tool SaaS).

The definitions below are a shallow embedding of the Python sources:
pure arithmetic is translated to functions over ℤ/ℚ/ℕ, the SQL-backed
usage table is an explicit list of rows, the filesystem is a list of
existing paths, and calls into third-party libraries (PyPDF2 merging,
the Gemini client, textstat) are oracle parameters whose outcome is an
input of the embedded function.  Python float expressions are modelled
with exact rationals and builtin int() conversion with truncation
toward zero.
-/

set_option autoImplicit false

namespace ToolHub

/-- Truncation of a rational toward zero, the behaviour of the Python
builtin int() applied to a float. -/
def pyTrunc (q : ℚ) : ℤ :=
  if 0 ≤ q then ⌊q⌋ else ⌈q⌉

/-- Python str.startswith, on the character lists of the two strings. -/
def pyStartswith (s p : String) : Bool :=
  p.data.isPrefixOf s.data

/-- Python truthiness of an optional string (None and the empty string
are falsy). -/
def truthyStr : Option String → Bool
  | none => false
  | some s => !s.isEmpty

/-! ## models/database.py -/

/-- models/database.py, class UserRole. -/
inductive UserRole
  | FREE
  | PREMIUM
deriving DecidableEq, BEq

/-- One row of the usage table (models/database.py, class Usage).
used_date is the calendar day of the used_at timestamp, as compared by
db.func.date. -/
structure UsageRow where
  user_id : Nat
  tool_name : String
  used_date : Nat
  input_data : Option String
  output_data : Option String
deriving DecidableEq

/-- models/database.py, class User (the fields the freemium logic reads).
The usage_records relationship is represented by the rows of the usage
table carrying this user's id. -/
structure User where
  id : Nat
  role : UserRole
deriving DecidableEq

/-- User.is_premium. -/
def User.is_premium (u : User) : Bool :=
  u.role == UserRole.PREMIUM

/-- User.get_daily_usage_count: count of this user's usage rows on
target_date, filtered by tool_name when that argument is truthy. -/
def User.get_daily_usage_count (u : User) (db : List UsageRow)
    (tool_name : Option String) (target_date : Nat) : Nat :=
  let dated := db.filter fun r =>
    r.user_id == u.id && r.used_date == target_date
  let rows :=
    if truthyStr tool_name then
      dated.filter fun r => some r.tool_name == tool_name
    else dated
  rows.length

/-- User.can_use_tool: premium users always may; free users are limited
to 3 uses per day across all AI tools. -/
def User.can_use_tool (u : User) (db : List UsageRow)
    (_tool_name : String) (today : Nat) : Bool :=
  if u.is_premium then true
  else
    let daily_usage := u.get_daily_usage_count db none today
    decide (daily_usage < 3)

/-! ## routes/ai_tools.py -/

/-- Result of routes/ai_tools.py check_usage_limit. -/
structure UsageCheck where
  allowed : Bool
  message : String
  redirect : Option String
deriving DecidableEq

/-- routes/ai_tools.py check_usage_limit.  current_user is none when the
request is unauthenticated. -/
def check_usage_limit (current_user : Option User) (db : List UsageRow)
    (today : Nat) (_tool_name : String) : UsageCheck :=
  match current_user with
  | none =>
      ⟨false, "Please login to use AI tools", some "auth.login"⟩
  | some u =>
      if u.is_premium then
        ⟨true, "Premium user - unlimited access", none⟩
      else
        let daily_usage := u.get_daily_usage_count db none today
        if daily_usage ≥ 3 then
          ⟨false,
            "Daily limit reached (" ++ toString daily_usage ++
              "/3). Upgrade to Premium for unlimited access.",
            some "auth.upgrade"⟩
        else
          ⟨true, "Free usage: " ++ toString (daily_usage + 1) ++ "/3 today",
            none⟩

/-- routes/ai_tools.py record_usage: inserts a usage row only for an
authenticated non-premium user, truncating input to 500 and output to
1000 characters (a falsy value is stored as NULL). -/
def record_usage (current_user : Option User) (tool_name : String)
    (input_data output_data : Option String) (now : Nat)
    (db : List UsageRow) : List UsageRow :=
  match current_user with
  | none => db
  | some u =>
      if u.is_premium then db
      else
        db ++ [{ user_id := u.id
                 tool_name := tool_name
                 used_date := now
                 input_data :=
                   if truthyStr input_data then
                     input_data.map fun s => s.take 500
                   else none
                 output_data :=
                   if truthyStr output_data then
                     output_data.map fun s => s.take 1000
                   else none }]

/-- An HTTP response as produced by the Flask handlers: a status code
and the body payload that matters for the claims. -/
structure HttpResponse where
  status : Nat
  body : String
deriving DecidableEq

/-- routes/ai_tools.py ai_generate (the /ai/generate POST handler).
login_required guarantees an authenticated user u.  gemini is the
outcome of gemini_service.generate_content: ok with the reply string,
or error when the call raises (caught by the outer handler as a 500).
Returns the response and the usage table after the request. -/
def ai_generate (u : User) (prompt : Option String)
    (gemini : Except Unit String) (today : Nat) (db : List UsageRow) :
    HttpResponse × List UsageRow :=
  if !truthyStr prompt then
    (⟨400, "Prompt is required"⟩, db)
  else
    let usage_check := check_usage_limit (some u) db today "ai_generate"
    if !usage_check.allowed then
      (⟨403, usage_check.message⟩, db)
    else
      match gemini with
      | .error _ => (⟨500, "Content generation failed"⟩, db)
      | .ok response =>
          if pyStartswith response "AI service is currently unavailable" then
            (⟨503, response⟩, db)
          else
            (⟨200, response⟩,
              record_usage (some u) "ai_generate" prompt (some response)
                today db)

/-! ## services/seo_analyzer.py -/

/-- The status strings assigned by the analyzers in
services/seo_analyzer.py (every analysis dict carries one of these). -/
inductive SeoStatus
  | good
  | warning
  | critical
deriving DecidableEq

/-- The counts of h1..h6 headings collected by
SEOAnalyzer._analyze_headings. -/
structure HeadingCounts where
  h1 : Nat
  h2 : Nat
  h3 : Nat
  h4 : Nat
  h5 : Nat
  h6 : Nat
deriving DecidableEq

/-- SEOAnalyzer._calculate_heading_hierarchy_score: start at 100, deduct
30 for a missing H1 or 15 for several H1s, then 10 per skipped heading
level, and clamp at 0. -/
def calculate_heading_hierarchy_score (hc : HeadingCounts) : ℤ :=
  let score0 : ℤ := 100
  let score1 :=
    if hc.h1 = 0 then score0 - 30
    else if hc.h1 > 1 then score0 - 15
    else score0
  let score2 := if hc.h2 > 0 ∧ hc.h1 = 0 then score1 - 10 else score1
  let score3 := if hc.h3 > 0 ∧ hc.h2 = 0 then score2 - 10 else score2
  let score4 := if hc.h4 > 0 ∧ hc.h3 = 0 then score3 - 10 else score3
  let score5 := if hc.h5 > 0 ∧ hc.h4 = 0 then score4 - 10 else score4
  let score6 := if hc.h6 > 0 ∧ hc.h5 = 0 then score5 - 10 else score5
  max 0 score6

/-- The h1_status assigned by SEOAnalyzer._analyze_headings. -/
def h1_status (hc : HeadingCounts) : SeoStatus :=
  if hc.h1 = 0 then .critical
  else if hc.h1 > 1 then .warning
  else .good

/-- The four scores returned by SEOAnalyzer._calculate_scores. -/
structure Scores where
  overall : ℤ
  technical : ℤ
  content : ℤ
  performance : ℤ
deriving DecidableEq

/-- The deduction applied by the if critical / elif warning chains of
SEOAnalyzer._calculate_scores: the critical points, the warning points,
or nothing. -/
def status_deduction (s : SeoStatus) (critical_points warning_points : ℤ) :
    ℤ :=
  match s with
  | .critical => critical_points
  | .warning => warning_points
  | .good => 0

/-- SEOAnalyzer._calculate_scores, as a function of the status fields it
reads from the analysis dicts and of the heading hierarchy score. -/
def calculate_scores (title_status meta_status : SeoStatus)
    (h1_st : SeoStatus) (hierarchy_score : ℤ)
    (content_status speed_status : SeoStatus) : Scores :=
  let technical_score : ℤ :=
    100 - status_deduction title_status 20 10 -
      status_deduction meta_status 20 10 - status_deduction h1_st 15 8
  let content_score : ℤ :=
    hierarchy_score - status_deduction content_status 30 15
  let performance_score : ℤ :=
    100 - status_deduction speed_status 40 20
  let overall_score : ℤ :=
    pyTrunc ((technical_score : ℚ) * 0.4 + (content_score : ℚ) * 0.3 +
      (performance_score : ℚ) * 0.3)
  { overall := max 0 overall_score
    technical := max 0 technical_score
    content := max 0 content_score
    performance := max 0 performance_score }

/-- SEOAnalyzer._calculate_readability.  The argument is the outcome of
textstat.flesch_reading_ease: ok with the returned score, or error when
the library call raises. -/
def calculate_readability (flesch : Except Unit ℚ) : ℤ :=
  match flesch with
  | .ok score => max 0 (min 100 (pyTrunc score))
  | .error _ => 50

/-! ## tools/pdf_merge.py -/

/-- The Python exceptions raised by the embedded fragments. -/
inductive PyError
  | valueError (msg : String)
  | fileNotFoundError (msg : String)
  | attributeError (msg : String)
  | exception (msg : String)
deriving DecidableEq

/-- PDFMerger.merge_pdfs.  fs is the list of existing file paths;
output_path is the fresh path produced by tempfile.mkstemp (which
creates the file); merge_error is the outcome of the PyPDF2
append/write step: none on success, or the message of the exception it
raised.  Returns the Python result and the filesystem afterwards. -/
def merge_pdfs (fs : List String) (pdf_paths : List String)
    (output_path : String) (merge_error : Option String) :
    Except PyError String × List String :=
  if pdf_paths.isEmpty || decide (pdf_paths.length < 2) then
    (.error (.valueError "At least 2 PDF files are required for merging"), fs)
  else
    match pdf_paths.find? (fun p => !fs.contains p) with
    | some missing =>
        (.error (.fileNotFoundError ("PDF file not found: " ++ missing)), fs)
    | none =>
        let fs1 := fs ++ [output_path]
        match merge_error with
        | none => (.ok output_path, fs1)
        | some e =>
            let fs2 := if fs1.contains output_path
              then fs1.erase output_path else fs1
            (.error (.exception ("Failed to merge PDFs: " ++ e)), fs2)

/-- routes/tools.py pdf_merge_process, the initial file-count check:
some response when the request is rejected there, none when it
proceeds. -/
def pdf_merge_process_count_check (files : List String) :
    Option HttpResponse :=
  if files.isEmpty || decide (files.length < 2) then
    some ⟨400, "At least 2 PDF files are required"⟩
  else none

/-! ## tools/pdf_toolkit.py -/

/-- One comma-separated part of a page specification, after the int
parses performed by PDFToolkit._parse_page_ranges (a part containing a
dash becomes a span, any other part a single page number). -/
inductive PagePart
  | single (n : ℤ)
  | span (s e : ℤ)
deriving DecidableEq

/-- PDFToolkit._parse_page_ranges: clamp each part into
[1, total_pages] and return the list of (start, end) pairs. -/
def parse_page_ranges (parts : List PagePart) (total_pages : ℤ) :
    List (ℤ × ℤ) :=
  parts.map fun part =>
    match part with
    | .span s e =>
        let lo := max 1 (min s total_pages)
        let hi := max lo (min e total_pages)
        (lo, hi)
    | .single n =>
        let page_num := max 1 (min n total_pages)
        (page_num, page_num)

/-- The instance attributes assigned by PDFToolkit.__init__ (it sets
only available_features; in particular it never sets logger). -/
def pdf_toolkit_init_attrs : List String := ["available_features"]

/-- The except-handler shared by the PDFToolkit methods: it first
evaluates self.logger.error(...), so when the logger attribute is
absent the attribute lookup raises AttributeError and the wrapped
Exception on the next line is never reached. -/
def pdf_toolkit_handler (attrs : List String) (wrapped_msg : String) :
    PyError :=
  if attrs.contains "logger" then .exception wrapped_msg
  else .attributeError "PDFToolkit object has no attribute logger"

/-- PDFToolkit.organize_pdf: the body abstracted as an oracle (ok with
the output path, or error with the message of the exception an internal
step raised), followed by the except-handler. -/
def organize_pdf (step : Except String String) : Except PyError String :=
  match step with
  | .ok path => .ok path
  | .error e =>
      .error (pdf_toolkit_handler pdf_toolkit_init_attrs
        ("Failed to organize PDF: " ++ e))

/-- PDFToolkit.unlock_pdf, abstracted like organize_pdf. -/
def unlock_pdf (step : Except String String) : Except PyError String :=
  match step with
  | .ok path => .ok path
  | .error e =>
      .error (pdf_toolkit_handler pdf_toolkit_init_attrs
        ("Failed to unlock PDF: " ++ e))

/-- PDFToolkit.ocr_pdf, abstracted like organize_pdf. -/
def ocr_pdf (step : Except String String) : Except PyError String :=
  match step with
  | .ok path => .ok path
  | .error e =>
      .error (pdf_toolkit_handler pdf_toolkit_init_attrs
        ("Failed to perform OCR on PDF: " ++ e))

/-- PDFToolkit.compare_pdfs, abstracted like organize_pdf. -/
def compare_pdfs (step : Except String String) : Except PyError String :=
  match step with
  | .ok path => .ok path
  | .error e =>
      .error (pdf_toolkit_handler pdf_toolkit_init_attrs
        ("Failed to compare PDFs: " ++ e))

/-- PDFToolkit.redact_pdf, abstracted like organize_pdf. -/
def redact_pdf (step : Except String String) : Except PyError String :=
  match step with
  | .ok path => .ok path
  | .error e =>
      .error (pdf_toolkit_handler pdf_toolkit_init_attrs
        ("Failed to redact PDF: " ++ e))

/-- PDFToolkit.edit_pdf_text, abstracted like organize_pdf. -/
def edit_pdf_text (step : Except String String) : Except PyError String :=
  match step with
  | .ok path => .ok path
  | .error e =>
      .error (pdf_toolkit_handler pdf_toolkit_init_attrs
        ("Failed to edit PDF text: " ++ e))

/-- PDFToolkit.sign_pdf, abstracted like organize_pdf. -/
def sign_pdf (step : Except String String) : Except PyError String :=
  match step with
  | .ok path => .ok path
  | .error e =>
      .error (pdf_toolkit_handler pdf_toolkit_init_attrs
        ("Failed to sign PDF: " ++ e))

/-! ## tools/image_resizer.py -/

/-- Python truthiness of an optional integer argument (None and 0 are
falsy); yields the value only when truthy. -/
def truthyInt : Option ℤ → Option ℤ
  | none => none
  | some n => if n == 0 then none else some n

/-- Python truthiness of an optional float argument (None and 0.0 are
falsy); yields the value only when truthy. -/
def truthyRat : Option ℚ → Option ℚ
  | none => none
  | some q => if q == 0 then none else some q

/-- The dimension computation of ImageResizer.resize_image (lines
81-104): branch on which of percentage / width / height are given,
preserve the aspect ratio where required, then force each dimension to
at least 1.  none corresponds to the ValueError raised when none of the
three is given. -/
def resize_image_dims (orig_width orig_height : ℤ)
    (width height : Option ℤ) (percentage : Option ℚ)
    (maintain_aspect : Bool) : Option (ℤ × ℤ) :=
  match truthyRat percentage, truthyInt width, truthyInt height with
  | some p, _, _ =>
      some (max 1 (pyTrunc ((orig_width : ℚ) * p / 100)),
            max 1 (pyTrunc ((orig_height : ℚ) * p / 100)))
  | none, some w, some h =>
      if maintain_aspect then
        let aspect_ratio : ℚ := (orig_width : ℚ) / (orig_height : ℚ)
        if (w : ℚ) / (h : ℚ) > aspect_ratio then
          some (max 1 (pyTrunc ((h : ℚ) * aspect_ratio)), max 1 h)
        else
          some (max 1 w, max 1 (pyTrunc ((w : ℚ) / aspect_ratio)))
      else
        some (max 1 w, max 1 h)
  | none, some w, none =>
      let aspect_ratio : ℚ := (orig_width : ℚ) / (orig_height : ℚ)
      some (max 1 w, max 1 (pyTrunc ((w : ℚ) / aspect_ratio)))
  | none, none, some h =>
      let aspect_ratio : ℚ := (orig_width : ℚ) / (orig_height : ℚ)
      some (max 1 (pyTrunc ((h : ℚ) * aspect_ratio)), max 1 h)
  | none, none, none => none

/-- The dimension computation of ImageResizer.get_resize_preview (lines
250-276), which repeats the arithmetic of resize_image and applies
max(1, _) to the dimensions it reports. -/
def get_resize_preview_dims (original_width original_height : ℤ)
    (width height : Option ℤ) (percentage : Option ℚ)
    (maintain_aspect : Bool) : Option (ℤ × ℤ) :=
  match truthyRat percentage, truthyInt width, truthyInt height with
  | some p, _, _ =>
      some (max 1 (pyTrunc ((original_width : ℚ) * p / 100)),
            max 1 (pyTrunc ((original_height : ℚ) * p / 100)))
  | none, some w, some h =>
      if maintain_aspect then
        let aspect_ratio : ℚ := (original_width : ℚ) / (original_height : ℚ)
        if (w : ℚ) / (h : ℚ) > aspect_ratio then
          some (max 1 (pyTrunc ((h : ℚ) * aspect_ratio)), max 1 h)
        else
          some (max 1 w, max 1 (pyTrunc ((w : ℚ) / aspect_ratio)))
      else
        some (max 1 w, max 1 h)
  | none, some w, none =>
      let aspect_ratio : ℚ := (original_width : ℚ) / (original_height : ℚ)
      some (max 1 w, max 1 (pyTrunc ((w : ℚ) / aspect_ratio)))
  | none, none, some h =>
      let aspect_ratio : ℚ := (original_width : ℚ) / (original_height : ℚ)
      some (max 1 (pyTrunc ((h : ℚ) * aspect_ratio)), max 1 h)
  | none, none, none => none

/-! ## Helper lemmas -/

theorem pyTrunc_eq_floor {q : ℚ} (h : 0 ≤ q) : pyTrunc q = ⌊q⌋ := by
  unfold pyTrunc
  rw [if_pos h]

theorem pyTrunc_nonneg {q : ℚ} (h : 0 ≤ q) : 0 ≤ pyTrunc q := by
  rw [pyTrunc_eq_floor h]
  exact Int.floor_nonneg.mpr h

theorem pyTrunc_cast_le {q : ℚ} (h : 0 ≤ q) : (pyTrunc q : ℚ) ≤ q := by
  rw [pyTrunc_eq_floor h]
  exact Int.floor_le q

/-! ## Claims -/

/-- C1: User.can_use_tool returns True for every PREMIUM user regardless
of recorded usage; for a FREE user it returns True iff the user's total
usage count recorded for the current day, across all tools, is strictly
below 3. -/
theorem claim_C1 (u : User) (db : List UsageRow) (tool : String)
    (today : Nat) :
    (u.role = UserRole.PREMIUM → u.can_use_tool db tool today = true) ∧
    (u.role = UserRole.FREE →
      (u.can_use_tool db tool today = true ↔
        (db.filter fun r => r.user_id == u.id && r.used_date == today).length
          < 3)) := by
  constructor
  · intro hrole
    have hb : u.is_premium = true := by rw [User.is_premium, hrole]; rfl
    simp [User.can_use_tool, hb]
  · intro hrole
    have hb : u.is_premium = false := by rw [User.is_premium, hrole]; rfl
    simp [User.can_use_tool, hb, User.get_daily_usage_count, truthyStr]

theorem claim_C1_witness :
    (User.can_use_tool ⟨1, UserRole.PREMIUM⟩ [] "blog_generator" 0 = true) ∧
    (User.can_use_tool ⟨2, UserRole.FREE⟩ [] "blog_generator" 0 = true ↔
      (([] : List UsageRow).filter
        fun r => r.user_id == 2 && r.used_date == 0).length < 3) :=
  ⟨(claim_C1 ⟨1, UserRole.PREMIUM⟩ [] "blog_generator" 0).1 rfl,
   (claim_C1 ⟨2, UserRole.FREE⟩ [] "blog_generator" 0).2 rfl⟩

/-- C5: every AI tool request without an authenticated user is refused
by check_usage_limit with allowed = False and a message directing the
user to log in, and record_usage stores nothing for such a request. -/
theorem claim_C5 (db : List UsageRow) (today : Nat) (tool : String)
    (input_data output_data : Option String) (now : Nat) :
    (check_usage_limit none db today tool).allowed = false ∧
    (check_usage_limit none db today tool).message =
      "Please login to use AI tools" ∧
    record_usage none tool input_data output_data now db = db :=
  ⟨rfl, rfl, rfl⟩

/-- C7: SEOAnalyzer._calculate_readability always returns an integer in
[0, 100]: the Flesch reading-ease score truncated and clamped when
textstat succeeds, and 50 when the library call raises. -/
theorem claim_C7 (flesch : Except Unit ℚ) :
    (0 ≤ calculate_readability flesch ∧ calculate_readability flesch ≤ 100) ∧
    calculate_readability (.error ()) = 50 ∧
    (∀ s : ℚ, calculate_readability (.ok s) =
      max 0 (min 100 (pyTrunc s))) := by
  refine ⟨?_, rfl, fun s => rfl⟩
  cases flesch with
  | error u => exact ⟨by norm_num [calculate_readability],
      by norm_num [calculate_readability]⟩
  | ok s =>
      constructor
      · simp only [calculate_readability]
        omega
      · simp only [calculate_readability]
        omega

/-- C10: PDFToolkit.__init__ never assigns a logger attribute, so the
except-handlers of organize_pdf, unlock_pdf, ocr_pdf, compare_pdfs,
redact_pdf, edit_pdf_text and sign_pdf fail on self.logger: every
internal failure of these methods surfaces as an AttributeError rather
than the documented wrapped Exception with a descriptive message. -/
theorem claim_C10 (e : String) :
    ¬ pdf_toolkit_init_attrs.contains "logger" = true ∧
    organize_pdf (.error e) =
      .error (.attributeError "PDFToolkit object has no attribute logger") ∧
    unlock_pdf (.error e) =
      .error (.attributeError "PDFToolkit object has no attribute logger") ∧
    ocr_pdf (.error e) =
      .error (.attributeError "PDFToolkit object has no attribute logger") ∧
    compare_pdfs (.error e) =
      .error (.attributeError "PDFToolkit object has no attribute logger") ∧
    redact_pdf (.error e) =
      .error (.attributeError "PDFToolkit object has no attribute logger") ∧
    edit_pdf_text (.error e) =
      .error (.attributeError "PDFToolkit object has no attribute logger") ∧
    sign_pdf (.error e) =
      .error (.attributeError "PDFToolkit object has no attribute logger") := by
  refine ⟨by decide, rfl, rfl, rfl, rfl, rfl, rfl, rfl⟩

theorem claim_C10_witness :
    organize_pdf (.error "disk full") =
      .error (.attributeError "PDFToolkit object has no attribute logger") :=
  (claim_C10 "disk full").2.1

/-- C8: for a well-formed page specification and total_pages ≥ 1, every
pair returned by PDFToolkit._parse_page_ranges satisfies
1 ≤ start ≤ end ≤ total_pages (out-of-range pages are clamped). -/
theorem claim_C8 (parts : List PagePart) (total_pages : ℤ)
    (htot : 1 ≤ total_pages) :
    ∀ pr ∈ parse_page_ranges parts total_pages,
      1 ≤ pr.1 ∧ pr.1 ≤ pr.2 ∧ pr.2 ≤ total_pages := by
  intro pr hpr
  simp only [parse_page_ranges, List.mem_map] at hpr
  obtain ⟨part, _, rfl⟩ := hpr
  cases part with
  | single n =>
      dsimp only
      omega
  | span s e =>
      dsimp only
      omega

theorem claim_C8_witness :
    1 ≤ ((2 : ℤ), (5 : ℤ)).1 ∧ ((2 : ℤ), (5 : ℤ)).1 ≤ ((2 : ℤ), (5 : ℤ)).2 ∧
      ((2 : ℤ), (5 : ℤ)).2 ≤ 5 :=
  claim_C8 [PagePart.span 2 9, PagePart.single 0] 5 (by norm_num) (2, 5)
    (by decide)

/-- C4: PDFMerger.merge_pdfs raises ValueError, touching no file, for
every list of fewer than 2 paths; with at least 2 paths it raises
FileNotFoundError at the first listed path that does not exist, again
touching no file; and the merge route handler rejects a request with
fewer than 2 uploaded files with HTTP 400. -/
theorem claim_C4 (fs : List String) (pdf_paths : List String)
    (output_path : String) (merge_error : Option String)
    (files : List String) :
    (pdf_paths.length < 2 →
      merge_pdfs fs pdf_paths output_path merge_error =
        (.error (.valueError "At least 2 PDF files are required for merging"),
          fs)) ∧
    (∀ missing, 2 ≤ pdf_paths.length →
      pdf_paths.find? (fun p => !fs.contains p) = some missing →
      missing ∈ pdf_paths ∧ ¬ missing ∈ fs ∧
        merge_pdfs fs pdf_paths output_path merge_error =
          (.error (.fileNotFoundError ("PDF file not found: " ++ missing)),
            fs)) ∧
    (files.length < 2 →
      pdf_merge_process_count_check files =
        some ⟨400, "At least 2 PDF files are required"⟩) := by
  refine ⟨?_, ?_, ?_⟩
  · intro hlen
    have hcond : (pdf_paths.isEmpty || decide (pdf_paths.length < 2)) = true := by
      simp [hlen]
    rw [merge_pdfs, if_pos hcond]
  · intro missing hlen hfind
    have hmem : missing ∈ pdf_paths := List.mem_of_find?_eq_some hfind
    have hnotfs : ¬ missing ∈ fs := by
      have := List.find?_some hfind
      simpa using this
    refine ⟨hmem, hnotfs, ?_⟩
    have hcond : (pdf_paths.isEmpty || decide (pdf_paths.length < 2)) = false := by
      have h1 : pdf_paths.isEmpty = false := by
        cases pdf_paths with
        | nil => simp at hlen
        | cons a l => rfl
      have h2 : decide (pdf_paths.length < 2) = false := by
        simp only [decide_eq_false_iff_not]
        omega
      simp [h1, h2]
    rw [merge_pdfs, if_neg (by simp [hcond]), hfind]
  · intro hlen
    have hcond : (files.isEmpty || decide (files.length < 2)) = true := by
      simp [hlen]
    rw [pdf_merge_process_count_check, if_pos hcond]

theorem claim_C4_witness :
    merge_pdfs [] ["a.pdf"] "merged.pdf" none =
      (.error (.valueError "At least 2 PDF files are required for merging"),
        []) ∧
    ("b.pdf" ∈ ["a.pdf", "b.pdf"] ∧ ¬ "b.pdf" ∈ ["a.pdf"] ∧
      merge_pdfs ["a.pdf"] ["a.pdf", "b.pdf"] "merged.pdf" none =
        (.error (.fileNotFoundError ("PDF file not found: " ++ "b.pdf")),
          ["a.pdf"])) ∧
    pdf_merge_process_count_check ["x.pdf"] =
      some ⟨400, "At least 2 PDF files are required"⟩ :=
  ⟨(claim_C4 [] ["a.pdf"] "merged.pdf" none []).1 (by norm_num),
   (claim_C4 ["a.pdf"] ["a.pdf", "b.pdf"] "merged.pdf" none []).2.1 "b.pdf"
     (by norm_num) (by decide),
   (claim_C4 [] [] "merged.pdf" none ["x.pdf"]).2.2 (by norm_num)⟩

/-- C6: when the merge step of PDFMerger.merge_pdfs fails after the
temporary output path was created, the output file is removed before
the wrapped Exception (whose message starts with
"Failed to merge PDFs:") is raised, so the failing call leaves the
filesystem exactly as it was. -/
theorem claim_C6 (fs : List String) (pdf_paths : List String)
    (output_path : String) (e : String)
    (hlen : 2 ≤ pdf_paths.length) (hex : ∀ p ∈ pdf_paths, p ∈ fs)
    (hout : ¬ output_path ∈ fs) :
    merge_pdfs fs pdf_paths output_path (some e) =
      (.error (.exception ("Failed to merge PDFs: " ++ e)), fs) ∧
    ¬ output_path ∈ (merge_pdfs fs pdf_paths output_path (some e)).2 := by
  have hcond : (pdf_paths.isEmpty || decide (pdf_paths.length < 2)) = false := by
    have h1 : pdf_paths.isEmpty = false := by
      cases pdf_paths with
      | nil => simp at hlen
      | cons a l => rfl
    have h2 : decide (pdf_paths.length < 2) = false := by
      simp only [decide_eq_false_iff_not]
      omega
    simp [h1, h2]
  have hfind : pdf_paths.find? (fun p => !fs.contains p) = none := by
    rw [List.find?_eq_none]
    intro p hp
    simpa using hex p hp
  have herase : (fs ++ [output_path]).erase output_path = fs := by
    rw [List.erase_append_right _ hout, List.erase_cons_head, List.append_nil]
  have hcontains : (fs ++ [output_path]).contains output_path = true := by
    simp
  have hmain :
      merge_pdfs fs pdf_paths output_path (some e) =
        (.error (.exception ("Failed to merge PDFs: " ++ e)), fs) := by
    rw [merge_pdfs, if_neg (by simp [hcond]), hfind]
    simp only [hcontains, if_pos, herase]
  exact ⟨hmain, by rw [hmain]; exact hout⟩

theorem claim_C6_witness :
    merge_pdfs ["a.pdf", "b.pdf"] ["a.pdf", "b.pdf"] "merged.pdf"
        (some "bad xref") =
      (.error (.exception ("Failed to merge PDFs: " ++ "bad xref")),
        ["a.pdf", "b.pdf"]) ∧
    ¬ "merged.pdf" ∈
      (merge_pdfs ["a.pdf", "b.pdf"] ["a.pdf", "b.pdf"] "merged.pdf"
        (some "bad xref")).2 :=
  claim_C6 ["a.pdf", "b.pdf"] ["a.pdf", "b.pdf"] "merged.pdf" "bad xref"
    (by norm_num) (by decide) (by decide)

/-- The amended claim C2, written from its words as a specification of
the observable outcome of a /ai/generate request by an authenticated
user u: the expected HTTP status, paired with the number of usage rows
the request adds (one on success for a free user, none for a premium
user, none otherwise). -/
def ai_generate_expected (u : User) (prompt : Option String)
    (gemini : Except Unit String) (today : Nat) (db : List UsageRow) :
    Nat × Nat :=
  if (match prompt with | none => true | some s => s.isEmpty) then
    (400, 0)
  else if u.role = UserRole.FREE ∧
      3 ≤ (db.filter fun r =>
        r.user_id == u.id && r.used_date == today).length then
    (403, 0)
  else
    match gemini with
    | .error _ => (500, 0)
    | .ok response =>
        if pyStartswith response "AI service is currently unavailable" then
          (503, 0)
        else
          (200, if u.role = UserRole.FREE then 1 else 0)

/-- C2 (amended): for every /ai/generate request by an authenticated
user, the handler returns 400 when the body has no prompt, 403 with no
usage recorded when a free user is at the daily limit, 503 when the AI
service reply reports unavailability, 500 on an internal exception, and
otherwise a success status, recording one usage only when the user is
free (a premium success records nothing). -/
theorem claim_C2 (u : User) (prompt : Option String)
    (gemini : Except Unit String) (today : Nat) (db : List UsageRow) :
    (ai_generate u prompt gemini today db).1.status =
      (ai_generate_expected u prompt gemini today db).1 ∧
    (ai_generate u prompt gemini today db).2.length =
      db.length + (ai_generate_expected u prompt gemini today db).2 := by
  obtain ⟨uid, role⟩ := u
  have hfree : ({ id := uid, role := role } : User).is_premium = false ↔
      role = UserRole.FREE := by
    cases role <;> simp [User.is_premium] <;> decide
  have hcount : User.get_daily_usage_count ⟨uid, role⟩ db none today =
      (db.filter fun r => r.user_id == uid && r.used_date == today).length := by
    simp [User.get_daily_usage_count, truthyStr]
  cases prompt with
  | none =>
      simp [ai_generate, ai_generate_expected, truthyStr]
  | some s =>
      by_cases hs : s.isEmpty
      · simp [ai_generate, ai_generate_expected, truthyStr, hs]
      · cases role with
        | PREMIUM =>
            have hprem : ({ id := uid, role := UserRole.PREMIUM } : User).is_premium
                = true := rfl
            simp only [ai_generate, ai_generate_expected, truthyStr, hs,
              Bool.not_false, Bool.not_eq_true', if_neg, check_usage_limit,
              hprem, if_true, Bool.not_true]
            cases gemini with
            | error u => simp
            | ok response =>
                by_cases hstart :
                    pyStartswith response "AI service is currently unavailable"
                · simp [hstart]
                · simp [hstart, record_usage, hprem]
        | FREE =>
            have hpf : ({ id := uid, role := UserRole.FREE } : User).is_premium
                = false := rfl
            by_cases hlim :
                3 ≤ (db.filter fun r =>
                  r.user_id == uid && r.used_date == today).length
            · have hcheck : (check_usage_limit
                  (some ⟨uid, UserRole.FREE⟩) db today "ai_generate").allowed
                    = false := by
                simp [check_usage_limit, hpf, hcount, hlim]
              simp [ai_generate, ai_generate_expected, truthyStr, hs, hcheck,
                hlim]
            · have hcheck : (check_usage_limit
                  (some ⟨uid, UserRole.FREE⟩) db today "ai_generate").allowed
                    = true := by
                simp [check_usage_limit, hpf, hcount, hlim]
              cases gemini with
              | error u =>
                  simp [ai_generate, ai_generate_expected, truthyStr, hs,
                    hcheck, hlim]
              | ok response =>
                  by_cases hstart :
                      pyStartswith response "AI service is currently unavailable"
                  · simp [ai_generate, ai_generate_expected, truthyStr, hs,
                      hcheck, hlim, hstart]
                  · simp [ai_generate, ai_generate_expected, truthyStr, hs,
                      hcheck, hlim, hstart, record_usage, hpf]

/-- C2, counterexample to the claim as stated: a premium user's
successful generation returns the output with a success status but
record_usage inserts no row, where the claim requires one recorded
usage. -/
theorem claim_C2_counterexample :
    (ai_generate ⟨1, UserRole.PREMIUM⟩ (some "Write a haiku")
        (Except.ok "An old silent pond") 0 []).1 =
      ⟨200, "An old silent pond"⟩ ∧
    (ai_generate ⟨1, UserRole.PREMIUM⟩ (some "Write a haiku")
        (Except.ok "An old silent pond") 0 []).2.length = 0 := by
  decide

/-- The heading hierarchy score never drops below 40: the H1 deduction
is at most 30 and the skipped-level deductions fire only at
non-adjacent levels, so they total at most 30. -/
theorem hierarchy_score_ge_forty (hc : HeadingCounts) :
    40 ≤ calculate_heading_hierarchy_score hc := by
  unfold calculate_heading_hierarchy_score
  dsimp only
  split_ifs <;> omega

/-- C3: every result of SEOAnalyzer._calculate_scores has
overall = max(0, int(0.4 * technical + 0.3 * content + 0.3 * performance))
in terms of the returned technical, content and performance scores;
technical carries the 20/10, 20/10 and 15/8 deductions, content is the
heading hierarchy score minus the 30/15 content deduction, performance
is 100 minus the 40/20 speed deduction, and all four returned scores
are nonnegative. -/
theorem claim_C3 (title_status meta_status content_status speed_status :
      SeoStatus) (hc : HeadingCounts) (sc : Scores)
    (hsc : sc = calculate_scores title_status meta_status (h1_status hc)
      (calculate_heading_hierarchy_score hc) content_status speed_status) :
    sc.overall =
      max 0 (pyTrunc ((0.4 : ℚ) * (sc.technical : ℚ) +
        (0.3 : ℚ) * (sc.content : ℚ) + (0.3 : ℚ) * (sc.performance : ℚ))) ∧
    0 ≤ sc.overall ∧ 0 ≤ sc.technical ∧ 0 ≤ sc.content ∧
    0 ≤ sc.performance ∧
    sc.technical = 100 - status_deduction title_status 20 10 -
      status_deduction meta_status 20 10 -
      status_deduction (h1_status hc) 15 8 ∧
    sc.content = calculate_heading_hierarchy_score hc -
      status_deduction content_status 30 15 ∧
    sc.performance = 100 - status_deduction speed_status 40 20 := by
  subst hsc
  have htd1 : 0 ≤ status_deduction title_status 20 10 := by
    cases title_status <;> norm_num [status_deduction]
  have htd2 : status_deduction title_status 20 10 ≤ 20 := by
    cases title_status <;> norm_num [status_deduction]
  have hmd1 : 0 ≤ status_deduction meta_status 20 10 := by
    cases meta_status <;> norm_num [status_deduction]
  have hmd2 : status_deduction meta_status 20 10 ≤ 20 := by
    cases meta_status <;> norm_num [status_deduction]
  have hhd1 : 0 ≤ status_deduction (h1_status hc) 15 8 := by
    cases h1_status hc <;> norm_num [status_deduction]
  have hhd2 : status_deduction (h1_status hc) 15 8 ≤ 15 := by
    cases h1_status hc <;> norm_num [status_deduction]
  have hcd1 : 0 ≤ status_deduction content_status 30 15 := by
    cases content_status <;> norm_num [status_deduction]
  have hcd2 : status_deduction content_status 30 15 ≤ 30 := by
    cases content_status <;> norm_num [status_deduction]
  have hsd1 : 0 ≤ status_deduction speed_status 40 20 := by
    cases speed_status <;> norm_num [status_deduction]
  have hsd2 : status_deduction speed_status 40 20 ≤ 40 := by
    cases speed_status <;> norm_num [status_deduction]
  have hh := hierarchy_score_ge_forty hc
  simp only [calculate_scores]
  have hT0 : (0 : ℤ) ≤ 100 - status_deduction title_status 20 10 -
      status_deduction meta_status 20 10 -
      status_deduction (h1_status hc) 15 8 := by omega
  have hC0 : (0 : ℤ) ≤ calculate_heading_hierarchy_score hc -
      status_deduction content_status 30 15 := by omega
  have hP0 : (0 : ℤ) ≤ 100 - status_deduction speed_status 40 20 := by
    omega
  refine ⟨?_, ?_, ?_, ?_, ?_, ?_, ?_, ?_⟩
  · rw [max_eq_right hT0, max_eq_right hC0, max_eq_right hP0]
    congr 2
    ring
  · omega
  · omega
  · omega
  · omega
  · omega
  · omega
  · omega

theorem claim_C3_witness :
    (calculate_scores SeoStatus.good SeoStatus.good
        (h1_status ⟨1, 0, 0, 0, 0, 0⟩)
        (calculate_heading_hierarchy_score ⟨1, 0, 0, 0, 0, 0⟩)
        SeoStatus.good SeoStatus.good).overall =
      max 0 (pyTrunc ((0.4 : ℚ) *
        ((calculate_scores SeoStatus.good SeoStatus.good
          (h1_status ⟨1, 0, 0, 0, 0, 0⟩)
          (calculate_heading_hierarchy_score ⟨1, 0, 0, 0, 0, 0⟩)
          SeoStatus.good SeoStatus.good).technical : ℚ) +
        (0.3 : ℚ) *
        ((calculate_scores SeoStatus.good SeoStatus.good
          (h1_status ⟨1, 0, 0, 0, 0, 0⟩)
          (calculate_heading_hierarchy_score ⟨1, 0, 0, 0, 0, 0⟩)
          SeoStatus.good SeoStatus.good).content : ℚ) +
        (0.3 : ℚ) *
        ((calculate_scores SeoStatus.good SeoStatus.good
          (h1_status ⟨1, 0, 0, 0, 0, 0⟩)
          (calculate_heading_hierarchy_score ⟨1, 0, 0, 0, 0, 0⟩)
          SeoStatus.good SeoStatus.good).performance : ℚ))) :=
  (claim_C3 SeoStatus.good SeoStatus.good SeoStatus.good SeoStatus.good
    ⟨1, 0, 0, 0, 0, 0⟩ _ rfl).1

/-- C9: for positive original dimensions, both resize_image and
get_resize_preview compute dimensions of at least 1 pixel each; and in
aspect-preserving mode with both a positive target width and height
given (and no percentage), the computed dimensions never exceed the
requested box. -/
theorem claim_C9 (ow oh : ℤ) (how : 0 < ow) (hoh : 0 < oh)
    (w? h? : Option ℤ) (p? : Option ℚ) (ma : Bool) :
    (∀ nw nh, resize_image_dims ow oh w? h? p? ma = some (nw, nh) →
      1 ≤ nw ∧ 1 ≤ nh) ∧
    (∀ nw nh, get_resize_preview_dims ow oh w? h? p? ma = some (nw, nh) →
      1 ≤ nw ∧ 1 ≤ nh) ∧
    (∀ w h nw nh, ma = true → p? = none → w? = some w → h? = some h →
      0 < w → 0 < h →
      resize_image_dims ow oh w? h? p? ma = some (nw, nh) →
      nw ≤ w ∧ nh ≤ h) ∧
    (∀ w h nw nh, ma = true → p? = none → w? = some w → h? = some h →
      0 < w → 0 < h →
      get_resize_preview_dims ow oh w? h? p? ma = some (nw, nh) →
      nw ≤ w ∧ nh ≤ h) := by
  have hpe : get_resize_preview_dims ow oh w? h? p? ma =
      resize_image_dims ow oh w? h? p? ma := rfl
  have hmin : ∀ nw nh,
      resize_image_dims ow oh w? h? p? ma = some (nw, nh) →
      1 ≤ nw ∧ 1 ≤ nh := by
    intro nw nh heq
    unfold resize_image_dims at heq
    split at heq
    · simp only [Option.some.injEq, Prod.mk.injEq] at heq
      omega
    · split at heq
      · simp only [] at heq
        split at heq
        · simp only [Option.some.injEq, Prod.mk.injEq] at heq
          omega
        · simp only [Option.some.injEq, Prod.mk.injEq] at heq
          omega
      · simp only [Option.some.injEq, Prod.mk.injEq] at heq
        omega
    · simp only [Option.some.injEq, Prod.mk.injEq] at heq
      omega
    · simp only [Option.some.injEq, Prod.mk.injEq] at heq
      omega
    · exact Option.noConfusion heq
  have hbox : ∀ w h nw nh, ma = true → p? = none → w? = some w →
      h? = some h → 0 < w → 0 < h →
      resize_image_dims ow oh w? h? p? ma = some (nw, nh) →
      nw ≤ w ∧ nh ≤ h := by
    intro w h nw nh hma hp hw hh hwpos hhpos heq
    subst hma
    subst hp
    subst hw
    subst hh
    have hw0 : (w == 0) = false := by simp; omega
    have hh0 : (h == 0) = false := by simp; omega
    have htw : truthyInt (some w) = some w := by simp [truthyInt, hw0]
    have hth : truthyInt (some h) = some h := by simp [truthyInt, hh0]
    unfold resize_image_dims at heq
    rw [show truthyRat none = none from rfl, htw, hth] at heq
    simp only [] at heq
    rw [if_pos trivial] at heq
    have hhQ : (0 : ℚ) < (h : ℚ) := by exact_mod_cast hhpos
    have har : (0 : ℚ) < (ow : ℚ) / (oh : ℚ) :=
      div_pos (by exact_mod_cast how) (by exact_mod_cast hoh)
    split at heq
    · rename_i hr
      have hlt : (h : ℚ) * ((ow : ℚ) / (oh : ℚ)) < (w : ℚ) := by
        have := (lt_div_iff₀ hhQ).mp hr
        linarith
      have hq0 : (0 : ℚ) ≤ (h : ℚ) * ((ow : ℚ) / (oh : ℚ)) :=
        le_of_lt (mul_pos hhQ har)
      have hptw : pyTrunc ((h : ℚ) * ((ow : ℚ) / (oh : ℚ))) < w := by
        have hq : (pyTrunc ((h : ℚ) * ((ow : ℚ) / (oh : ℚ))) : ℚ) < (w : ℚ) :=
          lt_of_le_of_lt (pyTrunc_cast_le hq0) hlt
        exact_mod_cast hq
      simp only [Option.some.injEq, Prod.mk.injEq] at heq
      omega
    · rename_i hr
      have hle : (w : ℚ) / (h : ℚ) ≤ (ow : ℚ) / (oh : ℚ) := le_of_not_lt hr
      have hwle : (w : ℚ) ≤ (ow : ℚ) / (oh : ℚ) * (h : ℚ) :=
        (div_le_iff₀ hhQ).mp hle
      have hdivle : (w : ℚ) / ((ow : ℚ) / (oh : ℚ)) ≤ (h : ℚ) :=
        (div_le_iff₀ har).mpr (by linarith)
      have hq0 : (0 : ℚ) ≤ (w : ℚ) / ((ow : ℚ) / (oh : ℚ)) :=
        div_nonneg (by exact_mod_cast le_of_lt hwpos) (le_of_lt har)
      have hpth : pyTrunc ((w : ℚ) / ((ow : ℚ) / (oh : ℚ))) ≤ h := by
        have hq : (pyTrunc ((w : ℚ) / ((ow : ℚ) / (oh : ℚ))) : ℚ) ≤ (h : ℚ) :=
          le_trans (pyTrunc_cast_le hq0) hdivle
        exact_mod_cast hq
      simp only [Option.some.injEq, Prod.mk.injEq] at heq
      omega
  refine ⟨hmin, ?_, hbox, ?_⟩
  · intro nw nh heq
    rw [hpe] at heq
    exact hmin nw nh heq
  · intro w h nw nh hma hp hw hh hwpos hhpos heq
    rw [hpe] at heq
    exact hbox w h nw nh hma hp hw hh hwpos hhpos heq

theorem claim_C9_witness :
    ((1 : ℤ) ≤ 3 ∧ (1 : ℤ) ≤ 1) ∧ ((3 : ℤ) ≤ 3 ∧ (1 : ℤ) ≤ 3) :=
  ⟨(claim_C9 4 2 (by norm_num) (by norm_num) (some 3) (some 3) none
      true).1 3 1
    (by norm_num [resize_image_dims, truthyInt, truthyRat, pyTrunc,
      Rat.floor_def]),
   (claim_C9 4 2 (by norm_num) (by norm_num) (some 3) (some 3) none
      true).2.2.1 3 3 3 1 rfl rfl rfl rfl (by norm_num) (by norm_num)
    (by norm_num [resize_image_dims, truthyInt, truthyRat, pyTrunc,
      Rat.floor_def])⟩

end ToolHub
